import Mathlib

/-!
Shallow embedding of `src/python_backend/engine.py`, the single source file of
the chronos repository: a Flask-based RAG backend built on LangChain.

External collaborators (HuggingFace embeddings, the FAISS vector store, the
Ollama chat model, the per-format document parsers and the recursive text
splitter) are out of scope per the specification; they are modelled as opaque
oracles whose outcomes are inputs to the embedded functions, while every
decision made by the repository's own code (control flow, error ordering,
state updates, response shapes) is translated faithfully.
-/

/-! ## Python-level helpers -/

/-- Splits a character list on a separator character, mirroring Python's
`str.split(sep)`: always returns at least one (possibly empty) piece. -/
def splitOnChar (sep : Char) : List Char → List (List Char)
  | [] => [[]]
  | c :: cs =>
    match splitOnChar sep cs with
    | [] => [[]]
    | head :: rest => if c = sep then [] :: head :: rest else (c :: head) :: rest

/-- Reads a nonempty run of decimal digits into a number, failing on any
non-digit character. -/
def digitsToNatAux (acc : Nat) : List Char → Option Nat
  | [] => some acc
  | c :: cs => if c.isDigit then digitsToNatAux (acc * 10 + (c.toNat - 48)) cs else none

/-- Parses a nonempty all-digit character list as a natural number. -/
def digitsToNat (cs : List Char) : Option Nat :=
  match cs with
  | [] => none
  | _ => digitsToNatAux 0 cs

/-- Models Python's `int(...)` constructor on the strings this program feeds
it: an optional sign followed by decimal digits. -/
def pyInt (s : String) : Option Int :=
  match s.toList with
  | '-' :: rest => (digitsToNat rest).map (fun n => -(n : Int))
  | '+' :: rest => (digitsToNat rest).map (fun n => (n : Int))
  | cs => (digitsToNat cs).map (fun n => (n : Int))

/-- Parses an unsigned decimal numeral with at most one point into a pair
(mantissa, number of fractional digits). -/
def pyFloatFixPos (cs : List Char) : Option (Int × Nat) :=
  match splitOnChar '.' cs with
  | [a] => (digitsToNat a).map (fun n => ((n : Int), 0))
  | [a, b] =>
    match digitsToNat a, digitsToNat b with
    | some n, some f => some (((n : Int) * (10 : Int) ^ b.length + (f : Int), b.length))
    | _, _ => none
  | _ => none

/-- Parses a signed decimal numeral into a (mantissa, fractional digit count)
pair. -/
def pyFloatFix (s : String) : Option (Int × Nat) :=
  match s.toList with
  | '-' :: rest => (pyFloatFixPos rest).map (fun p => (-p.1, p.2))
  | cs => pyFloatFixPos cs

/-- The exact rational value of a (mantissa, fractional digit count) pair. -/
def ratOfFix (p : Int × Nat) : Rat :=
  (p.1 : Rat) / (10 : Rat) ^ p.2

/-- Models Python's `float(...)` constructor on decimal numerals, with exact
rational values standing in for the parsed floats. -/
def pyFloat (s : String) : Option Rat :=
  (pyFloatFix s).map ratOfFix

/-- Characters of the final path component strictly after the last occurrence
of `sep`, or `none` when `sep` does not occur. -/
def afterLastChar (sep : Char) (cs : List Char) : Option (List Char) :=
  match cs.reverse.takeWhile (fun c => c ≠ sep), cs.contains sep with
  | _, false => none
  | tail, true => some tail.reverse

/-- Models Python's `pathlib.Path(p).suffix`: the extension of the final path
component including its dot, empty when there is no dot, when the dot is the
leading character of the component, or when the dot is final. -/
def pathSuffix (p : String) : String :=
  let base := (afterLastChar '/' p.toList).getD p.toList
  match afterLastChar '.' base with
  | none => ""
  | some ext =>
    if ext.length + 1 = base.length then ""
    else if ext.isEmpty then ""
    else String.mk ('.' :: ext)

/-- Models Python's `str.lower()` (sufficient for ASCII extensions). -/
def lowerString (s : String) : String :=
  String.mk (s.toList.map Char.toLower)

/-- Python truthiness of an optional JSON string field, as tested by
`if not value:` — absent and empty-string values are both falsy. -/
def pyTruthy : Option String → Bool
  | none => false
  | some s => s ≠ ""

/-- Models `os.getenv(name, default)`. -/
def getenvD (env : String → Option String) (name default : String) : String :=
  (env name).getD default

/-! ## Data model -/

/-- A LangChain `Document`: page content plus a metadata mapping.  LangChain
documents carry no `relevance_score` attribute (engine.py line 206 reads it
through `getattr` with a `None` fallback). -/
structure Document where
  page_content : String
  metadata : List (String × String)
deriving DecidableEq, Repr

/-- The FAISS vector store, abstracted to the ordered collection of stored
documents (the embedding vectors are opaque per the spec's scope). -/
structure FAISSStore where
  docs : List Document
deriving DecidableEq, Repr

/-- The placeholder entry that `FAISS.from_texts([""], ...)` seeds a freshly
created store with (engine.py lines 126-131): one document with empty page
content and empty metadata. -/
def emptyDoc : Document :=
  { page_content := "", metadata := [] }

/-- The `AppConfig` dataclass (engine.py lines 32-44). -/
structure AppConfig where
  PERSIST_DIR : String
  EMBEDDINGS_MODEL : String
  LLM_MODEL : String
  CHUNK_SIZE : Int
  CHUNK_OVERLAP : Int
  TEMPERATURE : Rat
  TOP_K_RESULTS : Int
deriving DecidableEq, Repr

/-- Constructs `AppConfig()` from an environment, mirroring the
`os.getenv`-with-default field initializers of engine.py lines 36-44;
`none` models a failure of `int(...)`/`float(...)` on a malformed value. -/
def AppConfig.fromEnv (env : String → Option String) : Option AppConfig :=
  match pyInt (getenvD env "CHUNK_SIZE" "1000"),
        pyInt (getenvD env "CHUNK_OVERLAP" "200"),
        pyFloat (getenvD env "TEMPERATURE" "0.7"),
        pyInt (getenvD env "TOP_K_RESULTS" "3") with
  | some cs, some co, some t, some k =>
    some { PERSIST_DIR := getenvD env "PERSIST_DIR" "vectorstore"
           EMBEDDINGS_MODEL := getenvD env "EMBEDDINGS_MODEL"
             "sentence-transformers/all-MiniLM-L6-v2"
           LLM_MODEL := getenvD env "LLM_MODEL" "llama3.2-vision"
           CHUNK_SIZE := cs
           CHUNK_OVERLAP := co
           TEMPERATURE := t
           TOP_K_RESULTS := k }
  | _, _, _, _ => none

/-- The configuration obtained with no environment overrides. -/
def defaultConfig : AppConfig :=
  { PERSIST_DIR := "vectorstore"
    EMBEDDINGS_MODEL := "sentence-transformers/all-MiniLM-L6-v2"
    LLM_MODEL := "llama3.2-vision"
    CHUNK_SIZE := 1000
    CHUNK_OVERLAP := 200
    TEMPERATURE := 7 / 10
    TOP_K_RESULTS := 3 }

/-! ## Document loader -/

/-- The per-format LangChain loader classes used by `DocumentLoader`. -/
inductive LoaderClass
  | pyPDFLoader
  | textLoader
  | docx2txtLoader
  | unstructuredMarkdownLoader
deriving DecidableEq, Repr

namespace DocumentLoader

/-- The `SUPPORTED_EXTENSIONS` dictionary (engine.py lines 62-68). -/
def SUPPORTED_EXTENSIONS : List (String × LoaderClass) :=
  [(".pdf", .pyPDFLoader),
   (".txt", .textLoader),
   (".doc", .docx2txtLoader),
   (".docx", .docx2txtLoader),
   (".md", .unstructuredMarkdownLoader)]

/-- Models `SUPPORTED_EXTENSIONS.get(ext)`. -/
def lookupLoader (ext : String) : Option LoaderClass :=
  (SUPPORTED_EXTENSIONS.find? (fun kv => kv.1 == ext)).map Prod.snd

end DocumentLoader

/-- Errors load_and_split can raise: `FileNotFoundError`, the `ValueError` for
an unsupported extension, and any exception re-raised from the external
loader/splitter pair. -/
inductive LoadError
  | fileNotFound (msg : String)
  | unsupportedType (msg : String)
  | loaderError (msg : String)
deriving DecidableEq, Repr

/-- The message carried by a load error, as `str(e)` would render it. -/
def LoadError.message : LoadError → String
  | .fileNotFound m => m
  | .unsupportedType m => m
  | .loaderError m => m

/-- The filesystem and the external loading/splitting machinery visible to
`load_and_split`: which paths exist, and the outcome of running the selected
format parser plus the recursive character splitter (external libraries) on a
path with the given chunk size and overlap. -/
structure FileSystem where
  pathExists : String → Bool
  loaderResult : String → Int → Int → Except String (List Document)

/-- `DocumentLoader.load_and_split` (engine.py lines 70-95): checks existence
first, then looks up the lowercased suffix in the supported-extension table,
then defers to the external loader and splitter. -/
def DocumentLoader.load_and_split (fs : FileSystem) (file_path : String)
    (chunk_size chunk_overlap : Int) : Except LoadError (List Document) :=
  if fs.pathExists file_path = false then
    .error (.fileNotFound ("File not found: " ++ file_path))
  else
    match DocumentLoader.lookupLoader (lowerString (pathSuffix file_path)) with
    | none => .error (.unsupportedType ("Unsupported file type: " ++ pathSuffix file_path))
    | some _ =>
      match fs.loaderResult file_path chunk_size chunk_overlap with
      | .ok docs => .ok docs
      | .error e => .error (.loaderError e)

example : pathSuffix "dir/report.PDF" = ".PDF" := by decide
example : lowerString ".PDF" = ".pdf" := by decide
example : pathSuffix ".bashrc" = "" := by decide
example : pathSuffix "a.tar.gz" = ".gz" := by decide
example : pyFloatFix "0.7" = some (7, 1) := by decide
example : pyInt "-42" = some (-42) := by decide
example : ratOfFix (7, 1) = (7 : Rat) / 10 := by norm_num [ratOfFix]

/-! ## Streaming handler -/

/-- Concatenation of a token list in emission order. -/
def concatTokens : List String → String
  | [] => ""
  | t :: ts => t ++ concatTokens ts

/-- The token stream side channel of a model invocation: the `StreamHandler`
callback (engine.py lines 47-56) receives each produced token in order and
prints it immediately as a token event, while the chain accumulates the same
tokens, left to right, into the final generated string.  Returns the ordered
list of forwarded tokens together with the accumulated text. -/
def StreamHandler.processTokens (tokens : List String) : List String × String :=
  tokens.foldl (fun acc t => (acc.1 ++ [t], acc.2 ++ t)) ([], "")

/-! ## RAG engine -/

/-- The `RAGEngine` state after a successful `setup_components`: the shared
configuration, the FAISS store, and the flag that `qa_chain` was assigned
(engine.py lines 101-105 set it in `setup_components`; `query` re-checks it). -/
structure RAGEngine where
  config : AppConfig
  vector_store : FAISSStore
  qa_chain : Bool
deriving DecidableEq, Repr

/-- Outcomes of the external initialization steps performed by
`setup_components`: constructing the HuggingFace embeddings, loading a
persisted FAISS store when one exists, and constructing the Ollama chat
model. -/
structure InitOracle where
  embeddingsOk : Bool
  loadOk : Bool
  llmOk : Bool
deriving DecidableEq, Repr

/-- `RAGEngine.setup_components` (engine.py lines 107-169).  `disk` is the
persisted vector-store state (`none` when no persisted directory exists).  An
embeddings or LLM failure propagates out of initialization; a failure of
`FAISS.load_local` is caught and falls back to a fresh store seeded with the
placeholder empty entry, exactly as a missing persisted state does. -/
def RAGEngine.setup_components (config : AppConfig) (disk : Option FAISSStore)
    (o : InitOracle) : Except String RAGEngine :=
  if o.embeddingsOk = false then
    .error "failed to initialize embeddings"
  else
    let store : FAISSStore :=
      match disk with
      | some s => if o.loadOk then s else { docs := [emptyDoc] }
      | none => { docs := [emptyDoc] }
    if o.llmOk = false then
      .error "failed to initialize llm"
    else
      .ok { config := config, vector_store := store, qa_chain := true }

/-- Outcomes of the external steps of one ingestion call: whether embedding
the chunks inside `add_documents` succeeds (FAISS embeds the whole batch
before appending, so an embedding failure adds nothing), and whether
`save_local` succeeds. -/
structure IngestOracle where
  embedOk : Bool
  persistOk : Bool
deriving DecidableEq, Repr

/-- The response dictionary of `RAGEngine.load_document`. -/
inductive LoadResponse
  | success (num_chunks : Nat) (file_path : String)
  | error (message : String)
deriving DecidableEq, Repr

/-- Whether a load response carries `"status": "success"`. -/
def LoadResponse.isSuccess : LoadResponse → Bool
  | .success _ _ => true
  | .error _ => false

/-- The operations a `load_document` call performs, in order, with the
outcome of each. -/
inductive Op
  | loadSplitOp (ok : Bool)
  | addDocumentsOp (ok : Bool)
  | saveLocalOp (ok : Bool)
deriving DecidableEq, Repr

/-- The complete effect of one `RAGEngine.load_document` call: resulting
engine state, resulting persisted state, response dictionary, and the ordered
trace of operations the call executed. -/
structure IngestRun where
  engine : RAGEngine
  disk : Option FAISSStore
  response : LoadResponse
  trace : List Op
deriving Repr

/-- `RAGEngine.load_document` (engine.py lines 171-191): split the document,
append the chunks to the in-memory store, then save the store; any exception
is caught and turned into an error response.  A `save_local` failure occurs
after `add_documents` has already executed, so the in-memory append is not
rolled back. -/
def RAGEngine.load_document (eng : RAGEngine) (disk : Option FAISSStore)
    (fs : FileSystem) (o : IngestOracle) (file_path : String) : IngestRun :=
  match DocumentLoader.load_and_split fs file_path eng.config.CHUNK_SIZE
      eng.config.CHUNK_OVERLAP with
  | .error e =>
    { engine := eng, disk := disk, response := .error e.message
      trace := [.loadSplitOp false] }
  | .ok splits =>
    if o.embedOk = false then
      { engine := eng, disk := disk, response := .error "failed to embed documents"
        trace := [.loadSplitOp true, .addDocumentsOp false] }
    else
      let eng2 : RAGEngine :=
        { eng with vector_store := { docs := eng.vector_store.docs ++ splits } }
      if o.persistOk = false then
        { engine := eng2, disk := disk, response := .error "failed to save vector store"
          trace := [.loadSplitOp true, .addDocumentsOp true, .saveLocalOp false] }
      else
        { engine := eng2, disk := some eng2.vector_store
          response := .success splits.length file_path
          trace := [.loadSplitOp true, .addDocumentsOp true, .saveLocalOp true] }

/-- One entry of the `sources` list assembled by `RAGEngine.query`
(engine.py lines 202-209). -/
structure SourceEntry where
  content : String
  metadata : List (String × String)
  relevance_score : Option Rat
deriving DecidableEq, Repr

/-- The response dictionary of `RAGEngine.query`. -/
inductive QueryReply
  | success (answer : String) (sources : List SourceEntry)
  | error (message : String)
deriving DecidableEq, Repr

/-- Whether a query reply carries `"status": "success"`. -/
def QueryReply.isSuccess : QueryReply → Bool
  | .success _ _ => true
  | .error _ => false

/-- Outcome of the external model invocation inside one query: the tokens the
language model produced (in order), and whether the invocation raised after
producing them (`some` exception message) or completed. -/
structure QueryOracle where
  tokens : List String
  invokeError : Option String
deriving Repr

/-- The complete effect of one `RAGEngine.query` call: the (unchanged) engine
state, the token events forwarded to the streaming emitter in order, and the
response dictionary. -/
structure QueryRun where
  engine : RAGEngine
  emitted : List String
  reply : QueryReply
deriving Repr

/-- The retrieval step of the QA chain: the retriever built in
`setup_components` (engine.py lines 155-157) performs a similarity search over
the stored documents and returns the top `TOP_K_RESULTS` of them.  The
distance ranking is internal to FAISS, so it enters as the `rank` parameter, a
query-dependent reordering of the stored documents. -/
def RAGEngine.retrieve (rank : String → List Document → List Document)
    (eng : RAGEngine) (question : String) : List Document :=
  (rank question eng.vector_store.docs).take eng.config.TOP_K_RESULTS.toNat

/-- `RAGEngine.query` (engine.py lines 194-223): guard on `qa_chain`, invoke
the chain (retrieval, then generation with the streaming callback), then build
the `sources` list from the returned source documents; `relevance_score` is
read with `getattr(doc, 'relevance_score', None)` and LangChain documents
carry no such attribute, so the `None` fallback is taken. -/
def RAGEngine.query (rank : String → List Document → List Document)
    (eng : RAGEngine) (o : QueryOracle) (question : String) : QueryRun :=
  if eng.qa_chain = false then
    { engine := eng, emitted := [], reply := .error "QA chain not initialized" }
  else
    let retrieved := RAGEngine.retrieve rank eng question
    let streamed := StreamHandler.processTokens o.tokens
    match o.invokeError with
    | some e => { engine := eng, emitted := streamed.1, reply := .error e }
    | none =>
      { engine := eng, emitted := streamed.1
        reply := .success streamed.2 (retrieved.map (fun doc =>
          { content := doc.page_content, metadata := doc.metadata
            relevance_score := none })) }

/-! ## Flask application layer -/

/-- The process-wide server state: the global `engine` variable and the
persisted vector-store state on disk (engine.py lines 226-228). -/
structure ServerState where
  engine : Option RAGEngine
  disk : Option FAISSStore
deriving Repr

/-- An inbound HTTP request to one of the three routes.  For the POST routes,
`is_json` models `request.is_json` and `body` models the parsed JSON object's
string fields. -/
inductive HttpRequest
  | getHealth
  | postLoadDocument (is_json : Bool) (body : String → Option String)
  | postQuery (is_json : Bool) (body : String → Option String)

/-- The JSON body of an HTTP response. -/
inductive RespBody
  | jsonError (error : String)
  | loadResult (r : LoadResponse)
  | queryResult (r : QueryReply)
  | healthBody
  | internalError
deriving DecidableEq, Repr

/-- The observable outcome of one request: the server state afterwards, the
HTTP status and body, whether the `before_request` hook attempted engine
initialization, and whether an engine method (`load_document`/`query`) was
invoked. -/
structure HttpResult where
  state : ServerState
  status : Nat
  body : RespBody
  initRan : Bool
  engineCalled : Bool
deriving Repr

/-- One request handled by the Flask app (engine.py lines 231-272).  The
`initialize_engine` hook is registered with `@app.before_request`, so it runs
before EVERY request and rebuilds the engine from the shared config; if the
constructor raises, the global keeps its previous value, the request is
answered with status 500, and the process keeps running.  Otherwise the
request is routed: the POST routes first check `request.is_json`, then read
their required field with `data.get(...)` and reject falsy values (absent or
empty), and only then call into the engine, mapping its status to 200/400. -/
def app_handle (config : AppConfig) (st : ServerState) (initO : InitOracle)
    (fs : FileSystem) (ingO : IngestOracle)
    (rank : String → List Document → List Document) (qO : QueryOracle)
    (req : HttpRequest) : HttpResult :=
  match RAGEngine.setup_components config st.disk initO with
  | .error _ =>
    { state := st, status := 500, body := .internalError
      initRan := true, engineCalled := false }
  | .ok eng =>
    let st2 : ServerState := { engine := some eng, disk := st.disk }
    match req with
    | .getHealth =>
      { state := st2, status := 200, body := .healthBody
        initRan := true, engineCalled := false }
    | .postLoadDocument is_json body =>
      if is_json = false then
        { state := st2, status := 400
          body := .jsonError "Content-Type must be application/json"
          initRan := true, engineCalled := false }
      else if pyTruthy (body "file_path") = false then
        { state := st2, status := 400, body := .jsonError "file_path is required"
          initRan := true, engineCalled := false }
      else
        let run := RAGEngine.load_document eng st.disk fs ingO
          ((body "file_path").getD "")
        { state := { engine := some run.engine, disk := run.disk }
          status := if run.response.isSuccess then 200 else 400
          body := .loadResult run.response
          initRan := true, engineCalled := true }
    | .postQuery is_json body =>
      if is_json = false then
        { state := st2, status := 400
          body := .jsonError "Content-Type must be application/json"
          initRan := true, engineCalled := false }
      else if pyTruthy (body "question") = false then
        { state := st2, status := 400, body := .jsonError "question is required"
          initRan := true, engineCalled := false }
      else
        let run := RAGEngine.query rank eng qO ((body "question").getD "")
        { state := { engine := some run.engine, disk := st.disk }
          status := if run.reply.isSuccess then 200 else 400
          body := .queryResult run.reply
          initRan := true, engineCalled := true }

/-! ## Shared concrete fixtures -/

/-- A freshly initialized engine under the default configuration with no
persisted state: its store holds only the placeholder empty entry. -/
def freshEngine : RAGEngine :=
  { config := defaultConfig
    vector_store := { docs := [emptyDoc] }
    qa_chain := true }

/-- An initialization oracle in which every external step succeeds. -/
def okInit : InitOracle :=
  { embeddingsOk := true, loadOk := true, llmOk := true }

/-- An initialization oracle in which constructing the embeddings fails. -/
def failInit : InitOracle :=
  { embeddingsOk := false, loadOk := true, llmOk := true }

/-- A filesystem with no files. -/
def emptyFS : FileSystem :=
  { pathExists := fun _ => false, loaderResult := fun _ _ _ => .error "no file" }

/-- A single-chunk fixture document. -/
def skyDoc : Document :=
  { page_content := "The sky is blue.", metadata := [("source", "doc.txt")] }

/-- A filesystem holding exactly `doc.txt`, which loads and splits into the
single chunk `skyDoc`. -/
def skyFS : FileSystem :=
  { pathExists := fun p => p == "doc.txt"
    loaderResult := fun p _ _ => if p == "doc.txt" then .ok [skyDoc] else .error "no file" }

/-- An ingestion oracle in which embedding and persisting both succeed. -/
def okIngest : IngestOracle :=
  { embedOk := true, persistOk := true }

/-- A FAISS ranking that returns the stored documents in storage order (any
permutation is admissible for the library; on a one-entry store they all
coincide). -/
def idRank : String → List Document → List Document :=
  fun _ ds => ds

/-- A model invocation that completes after streaming three tokens. -/
def okQueryOracle : QueryOracle :=
  { tokens := ["It", " is", " blue."], invokeError := none }

/-- A JSON body whose only field is `question`. -/
def questionBody : String → Option String :=
  fun k => if k = "question" then some "hi" else none

/-- A JSON body in which `file_path` is present but the empty string. -/
def emptyFilePathBody : String → Option String :=
  fun k => if k = "file_path" then some "" else none

/-! ## Helper lemmas -/

/-- Running the stream handler fold from an arbitrary accumulator appends the
tokens in order and concatenates them onto the accumulated text. -/
theorem processTokens_foldl (ts : List String) (l : List String) (s : String) :
    ts.foldl (fun acc t => (acc.1 ++ [t], acc.2 ++ t)) (l, s) =
      (l ++ ts, s ++ concatTokens ts) := by
  induction ts generalizing l s with
  | nil => simp [concatTokens]
  | cons t ts ih =>
    simp only [List.foldl_cons, ih, concatTokens]
    rw [Prod.mk.injEq]
    exact ⟨by simp, by rw [String.append_assoc]⟩

/-- The stream handler forwards exactly the produced tokens in order, and the
accumulated text is their concatenation in emission order. -/
theorem processTokens_eq (ts : List String) :
    StreamHandler.processTokens ts = (ts, concatTokens ts) := by
  unfold StreamHandler.processTokens
  rw [processTokens_foldl]
  simp

/-! ## Claim C4 -/

/-- A filesystem holding one existing file `data.csv`, of unsupported format. -/
def csvFS : FileSystem :=
  { pathExists := fun p => p == "data.csv"
    loaderResult := fun _ _ _ => .error "unused" }

/-- C4 counterexample: the claim says an unsupported extension is rejected
with `UnsupportedFormatError` even when the file does not exist; but the code
checks existence first, so for the nonexistent path `missing.csv` (whose
`.csv` extension is unsupported) `load_and_split` raises `FileNotFoundError`,
not the unsupported-format error. -/
theorem C4_counterexample :
    emptyFS.pathExists "missing.csv" = false ∧
    DocumentLoader.lookupLoader (lowerString (pathSuffix "missing.csv")) = none ∧
    DocumentLoader.load_and_split emptyFS "missing.csv" 1000 200 =
      .error (.fileNotFound "File not found: missing.csv") :=
  ⟨rfl, rfl, rfl⟩

/-- C4 amended: `load_and_split` checks existence first: it fails with
`NotFoundError` exactly when the file does not exist, regardless of extension;
only for an existing file is an unsupported extension then rejected with
`UnsupportedFormatError`, before the format parser is consulted. -/
theorem C4_amended (fs : FileSystem) (p : String) (cs co : Int) :
    ((∃ m, DocumentLoader.load_and_split fs p cs co = .error (.fileNotFound m)) ↔
      fs.pathExists p = false) ∧
    (fs.pathExists p = true →
      DocumentLoader.lookupLoader (lowerString (pathSuffix p)) = none →
      DocumentLoader.load_and_split fs p cs co =
        .error (.unsupportedType ("Unsupported file type: " ++ pathSuffix p))) := by
  unfold DocumentLoader.load_and_split
  constructor
  · constructor
    · rintro ⟨m, hm⟩
      by_cases h : fs.pathExists p = false
      · exact h
      · exfalso
        rw [if_neg h] at hm
        cases hl : DocumentLoader.lookupLoader (lowerString (pathSuffix p)) with
        | none => rw [hl] at hm; exact LoadError.noConfusion (Except.error.inj hm)
        | some lc =>
          rw [hl] at hm
          cases hr : fs.loaderResult p cs co with
          | ok docs => rw [hr] at hm; exact Except.noConfusion hm
          | error e => rw [hr] at hm; exact LoadError.noConfusion (Except.error.inj hm)
    · intro h
      rw [if_pos h]
      exact ⟨"File not found: " ++ p, rfl⟩
  · intro h1 h2
    rw [if_neg (by simp [h1]), h2]

/-- C4 witness: an existing file with the unsupported `.csv` extension is
rejected with the unsupported-format error. -/
theorem C4_witness :
    DocumentLoader.load_and_split csvFS "data.csv" 1000 200 =
      .error (.unsupportedType ("Unsupported file type: " ++ pathSuffix "data.csv")) :=
  (C4_amended csvFS "data.csv" 1000 200).2 rfl rfl

/-! ## Claim C5 -/

/-- C5: whenever the add step of an ingestion succeeds (the document was
loaded and split, and embedding the chunks succeeded), `save_local` is invoked
immediately after `add_documents` within the same call, before it returns;
and the call can only report success if that persist step also succeeded. -/
theorem C5_persist_follows_add (eng : RAGEngine) (disk : Option FAISSStore)
    (fs : FileSystem) (o : IngestOracle) (p : String) (splits : List Document)
    (hload : DocumentLoader.load_and_split fs p eng.config.CHUNK_SIZE
      eng.config.CHUNK_OVERLAP = .ok splits)
    (hembed : o.embedOk = true) :
    (RAGEngine.load_document eng disk fs o p).trace =
      [.loadSplitOp true, .addDocumentsOp true, .saveLocalOp o.persistOk] ∧
    ((RAGEngine.load_document eng disk fs o p).response.isSuccess = true →
      o.persistOk = true) := by
  unfold RAGEngine.load_document
  rw [hload, hembed]
  cases hp : o.persistOk with
  | false => simp [LoadResponse.isSuccess]
  | true => simp [LoadResponse.isSuccess]

/-- C5 witness: a concrete successful ingestion in which the trace shows the
persist step running directly after the add step. -/
theorem C5_witness :
    (RAGEngine.load_document freshEngine none skyFS okIngest "doc.txt").trace =
      [.loadSplitOp true, .addDocumentsOp true, .saveLocalOp okIngest.persistOk] ∧
    ((RAGEngine.load_document freshEngine none skyFS okIngest "doc.txt").response.isSuccess = true →
      okIngest.persistOk = true) :=
  C5_persist_follows_add freshEngine none skyFS okIngest "doc.txt" [skyDoc] rfl rfl

/-! ## Claim C1 -/

/-- C1 counterexample: against an index holding only the placeholder created
at initialization, a query succeeds but `search` does NOT return an empty
sequence — the placeholder empty-string entry itself is retrieved and appears
in the `sources` returned to the caller. -/
theorem C1_counterexample :
    RAGEngine.setup_components defaultConfig none okInit = .ok freshEngine ∧
    (RAGEngine.query idRank freshEngine okQueryOracle "What color is the sky?").reply =
      .success "It is blue."
        [{ content := "", metadata := [], relevance_score := none }] ∧
    ([{ content := "", metadata := [], relevance_score := none }] : List SourceEntry) ≠ [] :=
  ⟨rfl, rfl, by simp⟩

/-- C1 amended: a query against an index holding no real ingested content
(only the placeholder empty entry created at initialization) returns without
error, but the retrieval result is not empty: it consists of the placeholder
empty-string entry, which is returned to the caller in `sources`.  This holds
for every FAISS ranking (any permutation of the stored entries) and every
completed model invocation. -/
theorem C1_amended (rank : String → List Document → List Document)
    (hperm : ∀ q ds, List.Perm (rank q ds) ds)
    (o : QueryOracle) (ho : o.invokeError = none) (q : String) :
    (RAGEngine.query rank freshEngine o q).reply =
      .success (concatTokens o.tokens)
        [{ content := "", metadata := [], relevance_score := none }] := by
  have hr : rank q freshEngine.vector_store.docs = [emptyDoc] :=
    List.perm_singleton.mp (hperm q freshEngine.vector_store.docs)
  unfold RAGEngine.query
  rw [if_neg (by simp [freshEngine])]
  unfold RAGEngine.retrieve
  rw [hr, ho, processTokens_eq]
  rfl

/-- C1 witness: the amended statement at a concrete ranking and invocation. -/
theorem C1_witness :
    (RAGEngine.query idRank freshEngine okQueryOracle "hi").reply =
      .success (concatTokens okQueryOracle.tokens)
        [{ content := "", metadata := [], relevance_score := none }] :=
  C1_amended idRank (fun _ ds => List.Perm.refl ds) okQueryOracle rfl "hi"

/-! ## Claim C2 -/

/-- An ingestion in which embedding succeeds but `save_local` fails. -/
def persistFailIngest : IngestOracle :=
  { embedOk := true, persistOk := false }

/-- C2 counterexample: an ingestion call that fails at the persist stage
reports an error, yet the in-memory vector store is NOT left as it was before
the call — the chunks added by `add_documents` remain in it (only the on-disk
state is unchanged). -/
theorem C2_counterexample :
    (RAGEngine.load_document freshEngine none skyFS persistFailIngest "doc.txt").response =
      .error "failed to save vector store" ∧
    (RAGEngine.load_document freshEngine none skyFS persistFailIngest "doc.txt").engine.vector_store ≠
      freshEngine.vector_store ∧
    (RAGEngine.load_document freshEngine none skyFS persistFailIngest "doc.txt").disk = none :=
  ⟨rfl, by decide, rfl⟩

/-- C2 amended: an ingestion call that fails before the persist stage (during
loading, splitting, or embedding) leaves the index unchanged both in memory
and on disk; every failed ingestion leaves the on-disk state unchanged; and a
query call never mutates the engine state.  (An ingestion failing at the
persist stage, however, leaves the freshly added chunks in the in-memory
store, as the counterexample shows.) -/
theorem C2_amended (eng : RAGEngine) (disk : Option FAISSStore) (fs : FileSystem)
    (o : IngestOracle) (p : String)
    (rank : String → List Document → List Document) (qo : QueryOracle) (q : String) :
    (((RAGEngine.load_document eng disk fs o p).response.isSuccess = false ∧
        o.persistOk = true) →
      (RAGEngine.load_document eng disk fs o p).engine = eng ∧
      (RAGEngine.load_document eng disk fs o p).disk = disk) ∧
    ((RAGEngine.load_document eng disk fs o p).response.isSuccess = false →
      (RAGEngine.load_document eng disk fs o p).disk = disk) ∧
    (RAGEngine.query rank eng qo q).engine = eng := by
  refine ⟨?_, ?_, ?_⟩
  · rintro ⟨hfail, hpersist⟩
    unfold RAGEngine.load_document at hfail ⊢
    cases hl : DocumentLoader.load_and_split fs p eng.config.CHUNK_SIZE
        eng.config.CHUNK_OVERLAP with
    | error e => exact ⟨rfl, rfl⟩
    | ok splits =>
      rw [hl] at hfail
      cases he : o.embedOk with
      | false => exact ⟨rfl, rfl⟩
      | true =>
        rw [he, hpersist] at hfail
        simp [LoadResponse.isSuccess] at hfail
  · intro hfail
    unfold RAGEngine.load_document at hfail ⊢
    cases hl : DocumentLoader.load_and_split fs p eng.config.CHUNK_SIZE
        eng.config.CHUNK_OVERLAP with
    | error e => rfl
    | ok splits =>
      rw [hl] at hfail
      cases he : o.embedOk with
      | false => rfl
      | true =>
        rw [he] at hfail
        cases hp : o.persistOk with
        | false => rfl
        | true =>
          rw [hp] at hfail
          simp [LoadResponse.isSuccess] at hfail
  · unfold RAGEngine.query
    by_cases hq : eng.qa_chain = false
    · rw [if_pos hq]
    · rw [if_neg hq]
      cases he : qo.invokeError with
      | some e => rfl
      | none => rfl

/-- C2 witness: a concrete failed ingestion (nonexistent file) that leaves
memory and disk unchanged, and a concrete query that leaves the engine
unchanged. -/
theorem C2_witness :
    (RAGEngine.load_document freshEngine none emptyFS okIngest "missing.txt").engine =
      freshEngine ∧
    (RAGEngine.load_document freshEngine none emptyFS okIngest "missing.txt").disk = none ∧
    (RAGEngine.query idRank freshEngine okQueryOracle "hi").engine = freshEngine := by
  have h := C2_amended freshEngine none emptyFS okIngest "missing.txt" idRank okQueryOracle "hi"
  exact ⟨(h.1 ⟨rfl, rfl⟩).1, (h.1 ⟨rfl, rfl⟩).2, h.2.2⟩

/-! ## Claim C3 -/

/-- A first request hitting the app while engine initialization fails. -/
def requestOne : HttpResult :=
  app_handle defaultConfig { engine := none, disk := none } failInit emptyFS okIngest
    idRank okQueryOracle (.postQuery true questionBody)

/-- A second request, handled after the failed one, with initialization now
succeeding. -/
def requestTwo : HttpResult :=
  app_handle defaultConfig requestOne.state okInit emptyFS okIngest
    idRank okQueryOracle (.postQuery true questionBody)

/-- C3 counterexample: initialization is attempted before EVERY request (the
`before_request` hook), not once at startup, and an initialization failure is
not fatal: the failing request is answered with status 500 and the process
goes on to accept and successfully serve the next request. -/
theorem C3_counterexample :
    requestOne.initRan = true ∧ requestOne.status = 500 ∧
    requestTwo.initRan = true ∧ requestTwo.status = 200 :=
  ⟨rfl, rfl, rfl, rfl⟩

/-- C3 amended: the pipeline is (re)initialized before every request rather
than once at startup; when initialization fails the request is answered with
status 500 with the server state unchanged and without any endpoint logic
running — so no request is ever serviced by a non-functional pipeline — but
the process does not abort: it remains ready for subsequent requests. -/
theorem C3_amended (config : AppConfig) (st : ServerState) (initO : InitOracle)
    (fs : FileSystem) (ingO : IngestOracle)
    (rank : String → List Document → List Document) (qO : QueryOracle)
    (req : HttpRequest) :
    (app_handle config st initO fs ingO rank qO req).initRan = true ∧
    (∀ e, RAGEngine.setup_components config st.disk initO = .error e →
      (app_handle config st initO fs ingO rank qO req).status = 500 ∧
      (app_handle config st initO fs ingO rank qO req).state = st ∧
      (app_handle config st initO fs ingO rank qO req).engineCalled = false) := by
  constructor
  · unfold app_handle
    repeat first | rfl | split
  · intro e he
    unfold app_handle
    rw [he]
    exact ⟨rfl, rfl, rfl⟩

/-- C3 witness: the amended statement at a concrete failing initialization. -/
theorem C3_witness :
    (app_handle defaultConfig { engine := none, disk := none } failInit emptyFS okIngest
      idRank okQueryOracle HttpRequest.getHealth).status = 500 ∧
    (app_handle defaultConfig { engine := none, disk := none } failInit emptyFS okIngest
      idRank okQueryOracle HttpRequest.getHealth).engineCalled = false := by
  have h := C3_amended defaultConfig { engine := none, disk := none } failInit emptyFS
    okIngest idRank okQueryOracle HttpRequest.getHealth
  have h2 := h.2 "failed to initialize embeddings" rfl
  exact ⟨h2.1, h2.2.2⟩

/-! ## Claim C6 -/

/-- Evaluating `AppConfig.fromEnv` once the four numeric parses are known. -/
theorem fromEnv_compute (env : String → Option String) (cs co k : Int) (t : Int × Nat)
    (h1 : pyInt (getenvD env "CHUNK_SIZE" "1000") = some cs)
    (h2 : pyInt (getenvD env "CHUNK_OVERLAP" "200") = some co)
    (h3 : pyFloatFix (getenvD env "TEMPERATURE" "0.7") = some t)
    (h4 : pyInt (getenvD env "TOP_K_RESULTS" "3") = some k) :
    AppConfig.fromEnv env = some
      { PERSIST_DIR := getenvD env "PERSIST_DIR" "vectorstore"
        EMBEDDINGS_MODEL := getenvD env "EMBEDDINGS_MODEL"
          "sentence-transformers/all-MiniLM-L6-v2"
        LLM_MODEL := getenvD env "LLM_MODEL" "llama3.2-vision"
        CHUNK_SIZE := cs
        CHUNK_OVERLAP := co
        TEMPERATURE := ratOfFix t
        TOP_K_RESULTS := k } := by
  unfold AppConfig.fromEnv
  rw [h1, h2, h4, show pyFloat (getenvD env "TEMPERATURE" "0.7") = some (ratOfFix t) by
    unfold pyFloat; rw [h3]; rfl]

/-- An environment overriding only the chunk overlap, to a value larger than
the chunk size. -/
def badEnv : String → Option String :=
  fun name => if name = "CHUNK_OVERLAP" then some "2000" else none

/-- The configuration instance the code creates under `badEnv`. -/
def badConfig : AppConfig :=
  { PERSIST_DIR := "vectorstore"
    EMBEDDINGS_MODEL := "sentence-transformers/all-MiniLM-L6-v2"
    LLM_MODEL := "llama3.2-vision"
    CHUNK_SIZE := 1000
    CHUNK_OVERLAP := 2000
    TEMPERATURE := 7 / 10
    TOP_K_RESULTS := 3 }

/-- C6 counterexample: the invariant is not enforced at creation — with the
environment override `CHUNK_OVERLAP=2000` the startup code happily creates a
configuration instance whose chunk overlap (2000) is not smaller than its
chunk size (1000). -/
theorem C6_counterexample :
    AppConfig.fromEnv badEnv = some badConfig ∧
    ¬ (badConfig.CHUNK_OVERLAP < badConfig.CHUNK_SIZE) := by
  constructor
  · rw [fromEnv_compute badEnv 1000 2000 3 (7, 1) (by decide) (by decide) (by decide)
      (by decide)]
    rw [show ratOfFix (7, 1) = (7 : Rat) / 10 by norm_num [ratOfFix]]
    rfl
  · decide

/-- C6 amended: the configuration created with the default environment does
satisfy the invariant (chunk overlap 200 < chunk size 1000, K = 3 ≥ 1,
temperature 0.7 ∈ [0, 2]), and no engine operation ever mutates the
configuration of the engine state; but the invariant is not checked at
creation, so environment overrides can produce a violating instance. -/
theorem C6_amended :
    AppConfig.fromEnv (fun _ => none) = some defaultConfig ∧
    (defaultConfig.CHUNK_OVERLAP < defaultConfig.CHUNK_SIZE ∧
      1 ≤ defaultConfig.TOP_K_RESULTS ∧
      0 ≤ defaultConfig.TEMPERATURE ∧ defaultConfig.TEMPERATURE ≤ 2) ∧
    (∀ (eng : RAGEngine) (disk : Option FAISSStore) (fs : FileSystem)
        (o : IngestOracle) (p : String),
      (RAGEngine.load_document eng disk fs o p).engine.config = eng.config) ∧
    (∀ (rank : String → List Document → List Document) (eng : RAGEngine)
        (qo : QueryOracle) (q : String),
      (RAGEngine.query rank eng qo q).engine.config = eng.config) := by
  refine ⟨?_, ⟨by decide, by decide, ?_, ?_⟩, ?_, ?_⟩
  · rw [fromEnv_compute (fun _ => none) 1000 200 3 (7, 1) (by decide) (by decide)
      (by decide) (by decide)]
    rw [show ratOfFix (7, 1) = (7 : Rat) / 10 by norm_num [ratOfFix]]
    rfl
  · show (0 : Rat) ≤ 7 / 10
    norm_num
  · show (7 : Rat) / 10 ≤ 2
    norm_num
  · intro eng disk fs o p
    unfold RAGEngine.load_document
    cases hl : DocumentLoader.load_and_split fs p eng.config.CHUNK_SIZE
        eng.config.CHUNK_OVERLAP with
    | error e => rfl
    | ok splits =>
      cases he : o.embedOk with
      | false => rfl
      | true =>
        cases hp : o.persistOk with
        | false => rfl
        | true => rfl
  · intro rank eng qo q
    unfold RAGEngine.query
    by_cases hq : eng.qa_chain = false
    · rw [if_pos hq]
    · rw [if_neg hq]
      cases he : qo.invokeError with
      | some e => rfl
      | none => rfl

/-! ## Claim C7 -/

/-- C7: whenever a query produces an answer, its `sources` list mirrors the
retrieved documents one-to-one: same length and, position by position, the
same content and the same metadata, in retrieval order. -/
theorem C7_sources_mirror_retrieved (rank : String → List Document → List Document)
    (eng : RAGEngine) (o : QueryOracle) (q : String) (a : String)
    (s : List SourceEntry)
    (h : (RAGEngine.query rank eng o q).reply = .success a s) :
    s.length = (RAGEngine.retrieve rank eng q).length ∧
    ∀ (i : Nat) (hi : i < s.length) (hr : i < (RAGEngine.retrieve rank eng q).length),
      s[i].content = (RAGEngine.retrieve rank eng q)[i].page_content ∧
      s[i].metadata = (RAGEngine.retrieve rank eng q)[i].metadata := by
  unfold RAGEngine.query at h
  by_cases hq : eng.qa_chain = false
  · rw [if_pos hq] at h
    exact absurd h (by simp)
  · rw [if_neg hq] at h
    cases he : o.invokeError with
    | some e =>
      rw [he] at h
      exact absurd h (by simp)
    | none =>
      rw [he] at h
      simp only [QueryReply.success.injEq] at h
      obtain ⟨-, hs⟩ := h
      subst hs
      constructor
      · simp
      · intro i hi hr
        simp

/-- C7 witness: the mirror property observed on a concrete query over the
fresh index. -/
theorem C7_witness :
    ([{ content := "", metadata := [], relevance_score := none }] : List SourceEntry).length =
      (RAGEngine.retrieve idRank freshEngine "hi").length ∧
    ∀ (i : Nat)
      (hi : i < ([{ content := "", metadata := [], relevance_score := none }] :
        List SourceEntry).length)
      (hr : i < (RAGEngine.retrieve idRank freshEngine "hi").length),
      ([{ content := "", metadata := [], relevance_score := none }] :
        List SourceEntry)[i].content =
        (RAGEngine.retrieve idRank freshEngine "hi")[i].page_content ∧
      ([{ content := "", metadata := [], relevance_score := none }] :
        List SourceEntry)[i].metadata =
        (RAGEngine.retrieve idRank freshEngine "hi")[i].metadata :=
  C7_sources_mirror_retrieved idRank freshEngine okQueryOracle "hi" "It is blue."
    [{ content := "", metadata := [], relevance_score := none }] rfl

/-! ## Claim C8 -/

/-- C8: whenever a query produces an answer, every token the language model
produced is forwarded to the streaming emitter in the order generated, and
the final answer text equals the concatenation of the emitted tokens in
emission order. -/
theorem C8_stream_order_and_concat (rank : String → List Document → List Document)
    (eng : RAGEngine) (o : QueryOracle) (q : String) (a : String)
    (s : List SourceEntry)
    (h : (RAGEngine.query rank eng o q).reply = .success a s) :
    (RAGEngine.query rank eng o q).emitted = o.tokens ∧
    a = concatTokens ((RAGEngine.query rank eng o q).emitted) := by
  unfold RAGEngine.query at h ⊢
  by_cases hq : eng.qa_chain = false
  · rw [if_pos hq] at h
    exact absurd h (by simp)
  · rw [if_neg hq] at h ⊢
    cases he : o.invokeError with
    | some e =>
      rw [he] at h
      exact absurd h (by simp)
    | none =>
      rw [he] at h
      rw [processTokens_eq] at h ⊢
      simp only [QueryReply.success.injEq] at h
      obtain ⟨ha, -⟩ := h
      exact ⟨rfl, ha.symm⟩

/-- C8 witness: the streaming contract observed on a concrete query. -/
theorem C8_witness :
    (RAGEngine.query idRank freshEngine okQueryOracle "hi").emitted =
      okQueryOracle.tokens ∧
    "It is blue." =
      concatTokens ((RAGEngine.query idRank freshEngine okQueryOracle "hi").emitted) :=
  C8_stream_order_and_concat idRank freshEngine okQueryOracle "hi" "It is blue."
    [{ content := "", metadata := [], relevance_score := none }] rfl

/-! ## Claim C10 -/

/-- C10: in every successful query response, every entry of `sources` has a
`relevance_score` of `None`: the source documents returned by the QA chain
never carry a `relevance_score` attribute, so the `getattr` fallback is always
taken. -/
theorem C10_relevance_score_null (rank : String → List Document → List Document)
    (eng : RAGEngine) (o : QueryOracle) (q : String) (a : String)
    (s : List SourceEntry)
    (h : (RAGEngine.query rank eng o q).reply = .success a s) :
    ∀ e ∈ s, e.relevance_score = none := by
  unfold RAGEngine.query at h
  by_cases hq : eng.qa_chain = false
  · rw [if_pos hq] at h
    exact absurd h (by simp)
  · rw [if_neg hq] at h
    cases he : o.invokeError with
    | some e =>
      rw [he] at h
      exact absurd h (by simp)
    | none =>
      rw [he] at h
      simp only [QueryReply.success.injEq] at h
      obtain ⟨-, hs⟩ := h
      subst hs
      intro e he
      obtain ⟨d, -, hd⟩ := List.mem_map.mp he
      rw [← hd]

/-- C10 witness: the null relevance score observed on the concrete source
entry returned by a concrete query. -/
theorem C10_witness :
    ({ content := "", metadata := [], relevance_score := none } : SourceEntry).relevance_score =
      none :=
  C10_relevance_score_null idRank freshEngine okQueryOracle "hi" "It is blue."
    [{ content := "", metadata := [], relevance_score := none }] rfl
    { content := "", metadata := [], relevance_score := none } (by simp)

/-! ## Claim C9 -/

/-- The result of POSTing `{"file_path": ""}` to /load_document. -/
def emptyFieldResult : HttpResult :=
  app_handle defaultConfig { engine := none, disk := none } okInit emptyFS okIngest
    idRank okQueryOracle (.postLoadDocument true emptyFilePathBody)

/-- C9 counterexample: a JSON request whose `file_path` field is present but
empty is not missing its required field, so by the claim the engine should run
and decide the status; but the code's `if not file_path:` truthiness test
rejects it with the field-specific 400 message and never invokes the engine. -/
theorem C9_counterexample :
    emptyFilePathBody "file_path" = some "" ∧
    emptyFieldResult.status = 400 ∧
    emptyFieldResult.body = .jsonError "file_path is required" ∧
    emptyFieldResult.engineCalled = false :=
  ⟨rfl, rfl, rfl, rfl⟩

/-- C9 amended: given that the per-request engine initialization succeeds, a
POST without a JSON content type is answered 400 with the content-type error
before any endpoint logic runs; a JSON request whose required field is missing
OR empty (falsy) is answered 400 with the field-specific message without
invoking the engine; otherwise the engine method runs and the endpoint
returns its response with status 200 on success and 400 on error. -/
theorem C9_amended (config : AppConfig) (st : ServerState) (initO : InitOracle)
    (fs : FileSystem) (ingO : IngestOracle)
    (rank : String → List Document → List Document) (qO : QueryOracle)
    (eng : RAGEngine)
    (hinit : RAGEngine.setup_components config st.disk initO = .ok eng)
    (body : String → Option String) :
    ((app_handle config st initO fs ingO rank qO
        (.postLoadDocument false body)).status = 400 ∧
      (app_handle config st initO fs ingO rank qO
        (.postLoadDocument false body)).body =
          .jsonError "Content-Type must be application/json" ∧
      (app_handle config st initO fs ingO rank qO
        (.postLoadDocument false body)).engineCalled = false) ∧
    (pyTruthy (body "file_path") = false →
      (app_handle config st initO fs ingO rank qO
        (.postLoadDocument true body)).status = 400 ∧
      (app_handle config st initO fs ingO rank qO
        (.postLoadDocument true body)).body = .jsonError "file_path is required" ∧
      (app_handle config st initO fs ingO rank qO
        (.postLoadDocument true body)).engineCalled = false) ∧
    (pyTruthy (body "file_path") = true →
      (app_handle config st initO fs ingO rank qO
        (.postLoadDocument true body)).engineCalled = true ∧
      (app_handle config st initO fs ingO rank qO
        (.postLoadDocument true body)).body =
          .loadResult (RAGEngine.load_document eng st.disk fs ingO
            ((body "file_path").getD "")).response ∧
      (app_handle config st initO fs ingO rank qO
        (.postLoadDocument true body)).status =
          (if (RAGEngine.load_document eng st.disk fs ingO
            ((body "file_path").getD "")).response.isSuccess then 200 else 400)) ∧
    ((app_handle config st initO fs ingO rank qO
        (.postQuery false body)).status = 400 ∧
      (app_handle config st initO fs ingO rank qO
        (.postQuery false body)).body =
          .jsonError "Content-Type must be application/json" ∧
      (app_handle config st initO fs ingO rank qO
        (.postQuery false body)).engineCalled = false) ∧
    (pyTruthy (body "question") = false →
      (app_handle config st initO fs ingO rank qO
        (.postQuery true body)).status = 400 ∧
      (app_handle config st initO fs ingO rank qO
        (.postQuery true body)).body = .jsonError "question is required" ∧
      (app_handle config st initO fs ingO rank qO
        (.postQuery true body)).engineCalled = false) ∧
    (pyTruthy (body "question") = true →
      (app_handle config st initO fs ingO rank qO
        (.postQuery true body)).engineCalled = true ∧
      (app_handle config st initO fs ingO rank qO
        (.postQuery true body)).body =
          .queryResult (RAGEngine.query rank eng qO ((body "question").getD "")).reply ∧
      (app_handle config st initO fs ingO rank qO
        (.postQuery true body)).status =
          (if (RAGEngine.query rank eng qO
            ((body "question").getD "")).reply.isSuccess then 200 else 400)) := by
  refine ⟨?_, ?_, ?_, ?_, ?_, ?_⟩
  · unfold app_handle
    rw [hinit]
    exact ⟨rfl, rfl, rfl⟩
  · intro hb
    unfold app_handle
    rw [hinit]
    simp [hb]
  · intro hb
    unfold app_handle
    rw [hinit]
    simp [hb]
  · unfold app_handle
    rw [hinit]
    exact ⟨rfl, rfl, rfl⟩
  · intro hb
    unfold app_handle
    rw [hinit]
    simp [hb]
  · intro hb
    unfold app_handle
    rw [hinit]
    simp [hb]

/-- C9 witness: the amended statement observed at a concrete server state and
request bodies. -/
theorem C9_witness :
    (app_handle defaultConfig { engine := none, disk := none } okInit emptyFS okIngest
      idRank okQueryOracle (.postLoadDocument false questionBody)).status = 400 ∧
    (app_handle defaultConfig { engine := none, disk := none } okInit emptyFS okIngest
      idRank okQueryOracle (.postLoadDocument true questionBody)).body =
        .jsonError "file_path is required" ∧
    (app_handle defaultConfig { engine := none, disk := none } okInit emptyFS okIngest
      idRank okQueryOracle (.postQuery true questionBody)).engineCalled = true := by
  have h := C9_amended defaultConfig { engine := none, disk := none } okInit emptyFS
    okIngest idRank okQueryOracle freshEngine rfl questionBody
  exact ⟨h.1.1, (h.2.1 rfl).2.1, (h.2.2.2.2.2 rfl).1⟩
